import Mathlib

/-!
Verification of the rule-based course chatbot backend.

The definitions below are a shallow embedding of `src/chatbot.py` and
`src/kg.py`.  Text is modelled by `String`; Python's substring test,
`str.lower`/`str.upper` and the two regular expressions of `chatbot.py`
are implemented directly over the character lists.  The Neo4j
collaborator is modelled by a per-request behaviour record
(`KGBehavior`); graph writes performed by `build_reply` are returned as
an explicit log of upserted course records (second component of the
result), since the Python code discards the upsert's return value.
-/

namespace CourseBot

/-! ### String helpers (Python `str.lower`, `str.upper`, substring test) -/

def lowerStr (s : String) : String := String.mk (s.data.map Char.toLower)

def upperStr (s : String) : String := String.mk (s.data.map Char.toUpper)

/-- Boolean list-prefix test. -/
def isPrefB : List Char → List Char → Bool
  | [], _ => true
  | _ :: _, [] => false
  | a :: as, b :: bs => a == b && isPrefB as bs

/-- Boolean list-infix test: `needle` occurs contiguously in `hay`. -/
def isInfB (needle : List Char) : List Char → Bool
  | [] => isPrefB needle []
  | c :: t => isPrefB needle (c :: t) || isInfB needle t

/-- Python's `needle in hay` on strings. -/
def containsStr (hay needle : String) : Bool := isInfB needle.data hay.data

/-- Boolean list-suffix test. -/
def isSuffB (needle hay : List Char) : Bool := isPrefB needle.reverse hay.reverse

/-- `endsWithB s suf` — the string `s` ends with `suf`. -/
def endsWithB (s suf : String) : Bool := isSuffB suf.data s.data

/-- Python `any(k in text_lower for k in ks)`. -/
def anyKeyword (textLower : String) (ks : List String) : Bool :=
  ks.any (fun k => containsStr textLower k)

/-- Python truthiness of an `Optional[str]`: `None` and `""` are falsy. -/
def truthy : Option String → Bool
  | none => false
  | some s => !(s == "")

/-! ### Character classes of the regular expressions -/

def isWordChar (c : Char) : Bool := c.isAlpha || c.isDigit || c == '_'

def isSpaceB (c : Char) : Bool :=
  c == ' ' || c == '\t' || c == '\n' || c == '\r' || c == '\x0b' || c == '\x0c'

def isUpperLetter (c : Char) : Bool := 'A' ≤ c && c ≤ 'Z'

def isDigitB (c : Char) : Bool := c.isDigit

/-- `\b` between an optional previous and next character:
word-ness changes across the point (absent characters are non-word). -/
def boundaryAt (prev next : Option Char) : Bool :=
  (match prev with | none => false | some c => isWordChar c) !=
    (match next with | none => false | some c => isWordChar c)

def boundaryAfter : List Char → Bool
  | [] => true
  | c :: _ => !(isWordChar c)

/-! ### `COURSE_CODE_RE = \b([A-Z]{3})\s?(\d{3})\b`, searched on `text.upper()` -/

def ccDigits3 : List Char → Option (List Char × List Char)
  | d1 :: d2 :: d3 :: r =>
    if isDigitB d1 && isDigitB d2 && isDigitB d3 then some ([d1, d2, d3], r) else none
  | _ => none

/-- Try to match the course-code pattern at the head of `l`
(the leading `\b` has already been checked by the caller).
Returns the concatenated groups `letters ++ digits` (space removed). -/
def ccTryAt (l : List Char) : Option (List Char) :=
  match l with
  | c1 :: c2 :: c3 :: rest =>
    if isUpperLetter c1 && isUpperLetter c2 && isUpperLetter c3 then
      match rest with
      | [] => none
      | s :: rest2 =>
        if isSpaceB s then
          match ccDigits3 rest2 with
          | some (ds, r) => if boundaryAfter r then some ([c1, c2, c3] ++ ds) else none
          | none => none
        else
          match ccDigits3 rest with
          | some (ds, r) => if boundaryAfter r then some ([c1, c2, c3] ++ ds) else none
          | none => none
    else none
  | _ => none

/-- Left-to-right scan implementing `re.search`; `prev` is the character
before the current position (for the leading `\b`). -/
def ccSearch (prev : Option Char) : List Char → Option (List Char)
  | [] => none
  | c :: t =>
    let bOK := match prev with | none => true | some p => !(isWordChar p)
    match (if bOK then ccTryAt (c :: t) else none) with
    | some r => some r
    | none => ccSearch (some c) t

def courseCodeOf (text : String) : Option String :=
  (ccSearch none (upperStr text).data).map (fun l => String.mk l)

/-! ### `SEMESTER_RE = \b(Spring|Summer|Fall|Autumn|Winter)\s+\d{4}\b` (IGNORECASE) -/

def seasons : List String := ["Spring", "Summer", "Fall", "Autumn", "Winter"]

/-- Case-insensitive prefix match; returns the matched original-text
characters and the rest of the list. -/
def prefCI : List Char → List Char → Option (List Char × List Char)
  | [], l => some ([], l)
  | _ :: _, [] => none
  | p :: ps, c :: cs =>
    if p.toLower == c.toLower then
      match prefCI ps cs with
      | some (m, r) => some (c :: m, r)
      | none => none
    else none

def dropSpaces : List Char → List Char
  | [] => []
  | c :: t => if isSpaceB c then dropSpaces t else c :: t

/-- `\s+` — at least one whitespace character, greedily consumed. -/
def spaces1 : List Char → Option (List Char)
  | [] => none
  | c :: t => if isSpaceB c then some (dropSpaces t) else none

def digits4 : List Char → Option (List Char × List Char)
  | a :: b :: c :: d :: r =>
    if isDigitB a && isDigitB b && isDigitB c && isDigitB d then some ([a, b, c, d], r) else none
  | _ => none

/-- One alternative of the semester pattern at the current position;
the result is already `f"{season} {year}"` with the title-cased season
(each alternative is title-cased in the pattern, so `group(1).title()`
is the alternative itself). -/
def semTrySeason (l : List Char) (season : String) : Option String :=
  match prefCI season.data l with
  | none => none
  | some (_, r1) =>
    match spaces1 r1 with
    | none => none
    | some r2 =>
      match digits4 r2 with
      | none => none
      | some (ds, r3) =>
        if boundaryAfter r3 then some (season ++ " " ++ String.mk ds) else none

def semSearch (prev : Option Char) : List Char → Option String
  | [] => none
  | c :: t =>
    let bOK := match prev with | none => true | some p => !(isWordChar p)
    match (if bOK then seasons.findSome? (semTrySeason (c :: t)) else none) with
    | some r => some r
    | none => semSearch (some c) t

def semesterOf (text : String) : Option String := semSearch none text.data

/-! ### Department regex `\b(name1|name2|...)\b` (IGNORECASE), names length-descending -/

/-- One alternative of the department pattern at the current position,
including both `\b` anchors; returns `match.group(1).upper()`. -/
def deptTryName (prev : Option Char) (l : List Char) (name : String) : Option String :=
  match prefCI name.data l with
  | none => none
  | some (m, r) =>
    let bBefore := boundaryAt prev (match m.head? with | some c => some c | none => l.head?)
    let bAfter := boundaryAt (match m.getLast? with | some c => some c | none => prev) r.head?
    if bBefore && bAfter then some (upperStr (String.mk m)) else none

def deptSearch (names : List String) (prev : Option Char) : List Char → Option String
  | [] => names.findSome? (deptTryName prev [])
  | c :: t =>
    let bOK := true
    match (if bOK then names.findSome? (deptTryName prev (c :: t)) else none) with
    | some r => some r
    | none => deptSearch names (some c) t

/-! ### Data model -/

structure Course where
  course : String
  title : String
  teacher : String
  dept : String
  semester : String
  credit : Nat
deriving DecidableEq

/-- A `{code, title}` row as returned by the Graph Index lookups. -/
structure RowCT where
  code : String
  title : String
deriving DecidableEq

structure SummaryD where
  nodes : Nat
  edges : Nat
deriving DecidableEq

/-- Per-request behaviour of the Graph Index collaborator
(`KnowledgeGraph` in `src/kg.py`): each operation already returns the
`(value, optional-error)` pair of the Python interface. -/
structure KGBehavior where
  health : Bool × Option String
  summary : Option SummaryD × Option String
  get_courses_by_teacher : String → List RowCT × Option String
  get_courses_by_dept : String → List RowCT × Option String
  get_courses_by_semester : String → List RowCT × Option String
  upsert_course : Course → Bool × Option String

/-- The entity bundle is the Python dict returned by
`extract_entities`: an association list from key to optional value. -/
abbrev Entities := List (String × Option String)

/-- Python `dict.get(k)`: the stored value, or `None` when absent. -/
def eget (es : Entities) (k : String) : Option String :=
  match List.lookup k es with
  | some v => v
  | none => none

structure Chatbot where
  data : List Course
  kg : Option KGBehavior

/-- `self.by_code = {c["course"].upper(): c for c in data}` followed by
`.get k` (later records overwrite earlier ones on key collision). -/
def Chatbot.by_code (bot : Chatbot) (k : String) : Option Course :=
  bot.data.foldl (fun acc c => if upperStr c.course == k then some c else acc) none

def lenDescRel : String → String → Prop := fun a b => b.length ≤ a.length

instance : DecidableRel lenDescRel := fun a b => Nat.decLe b.length a.length

instance : IsTotal String lenDescRel := ⟨fun a b => Nat.le_total b.length a.length⟩

instance : IsTrans String lenDescRel := ⟨fun _ _ _ h1 h2 => Nat.le_trans h2 h1⟩

/-- `sorted(set(xs), key=len, reverse=True)`. -/
def sortLenDesc (xs : List String) : List String :=
  List.insertionSort lenDescRel xs.dedup

def Chatbot.teacher_names (bot : Chatbot) : List String :=
  sortLenDesc (bot.data.map (fun c => c.teacher))

def Chatbot.dept_names (bot : Chatbot) : List String :=
  sortLenDesc (bot.data.map (fun c => c.dept))

def Chatbot.semester_names (bot : Chatbot) : List String :=
  sortLenDesc (bot.data.map (fun c => c.semester))

/-- `_match_from_list`: first candidate whose lowercase form occurs in
the (already lowercased) text. -/
def match_from_list (textLower : String) : List String → Option String
  | [] => none
  | c :: rest =>
    if containsStr textLower (lowerStr c) then some c else match_from_list textLower rest

/-- `dept_pattern = "|".join(...)`; the regex is only built when the
joined pattern is non-empty. -/
def Chatbot.dept_pattern (bot : Chatbot) : String :=
  String.intercalate "|" bot.dept_names

/-- `extract_entities` (`src/chatbot.py:34-61`), returning the Python
dict as an association list. -/
def Chatbot.extract_entities (bot : Chatbot) (text : String) : Entities :=
  let text_upper := upperStr text
  let text_lower := lowerStr text
  let course_code := courseCodeOf text
  let teacher := match_from_list text_lower bot.teacher_names
  let dept :=
    if bot.dept_pattern == "" then none
    else deptSearch bot.dept_names none text_upper.data
  let semester := semesterOf text
  [("course_code", course_code), ("teacher", teacher), ("dept", dept), ("semester", semester)]

/-- `detect_intent` (`src/chatbot.py:63-89`). -/
def detect_intent (text : String) (entities : Entities) : String :=
  let text_lower := lowerStr text
  if anyKeyword text_lower ["help", "commands", "what can you do"] then "help"
  else if containsStr text_lower "graph" || containsStr text_lower "kg" then "graph_show"
  else if truthy (eget entities "course_code") then
    if anyKeyword text_lower ["teacher", "teach", "teaches", "instructor"] then "course_teacher"
    else if anyKeyword text_lower ["title", "name"] then "course_title"
    else if anyKeyword text_lower ["credit", "credits"] then "course_credit"
    else if anyKeyword text_lower ["semester", "term"] then "course_semester"
    else "course_info"
  else if truthy (eget entities "teacher") &&
      anyKeyword text_lower ["courses", "teach", "teaches"] then "teacher_courses"
  else if truthy (eget entities "dept") &&
      anyKeyword text_lower ["department", "dept", "courses"] then "dept_courses"
  else if truthy (eget entities "semester") &&
      anyKeyword text_lower ["courses", "offered"] then "semester_courses"
  else "unknown"

/-- `_kg_status` (`src/chatbot.py:248-251`). -/
def Chatbot.kg_status (bot : Chatbot) : Bool × Option String :=
  match bot.kg with
  | none => (false, some "KG not configured")
  | some g => g.health

/-- `_get_course` (`src/chatbot.py:258-261`): `if not code` is Python
truthiness, so `None` and `""` both fail. -/
def Chatbot.get_course (bot : Chatbot) (code : Option String) : Option Course :=
  match code with
  | none => none
  | some c => if c == "" then none else bot.by_code (upperStr c)

/-- `_try_upsert` (`src/chatbot.py:253-256`), as the log of course
records written to the Graph Index (the Python code discards the
upsert's return value). -/
def Chatbot.try_upsert (bot : Chatbot) (course : Course) (kg_ok : Bool) : List Course :=
  if bot.kg.isSome && kg_ok then [course] else []

/-- The `for course in courses: ... self._try_upsert(record, kg_ok)`
loop shared by the three lookup branches of `build_reply`
(`src/chatbot.py:186-189`, `211-214`, `236-239`). -/
def Chatbot.upsertAll (bot : Chatbot) (rows : List RowCT) (kg_ok : Bool) : List Course :=
  rows.foldr
    (fun row acc =>
      (match bot.by_code (upperStr row.code) with
        | some record => bot.try_upsert record kg_ok
        | none => []) ++ acc)
    []

/-- The `courses` list computed by the `teacher_courses` branch
(`src/chatbot.py:175-183`): the Graph Index rows when the index is
configured and healthy, with a fall-back linear scan of the Catalog
when that list is empty. -/
def Chatbot.teacherResult (bot : Chatbot) (teacher : String) : List RowCT :=
  let kg_ok := bot.kg_status.1
  let kgCourses :=
    match bot.kg with
    | some g => if kg_ok then (g.get_courses_by_teacher teacher).1 else []
    | none => []
  if kgCourses.isEmpty then
    (bot.data.filter (fun c => c.teacher == teacher)).map (fun c => RowCT.mk c.course c.title)
  else kgCourses

/-- The `courses` list of the `dept_courses` branch (`src/chatbot.py:200-208`). -/
def Chatbot.deptResult (bot : Chatbot) (dept : String) : List RowCT :=
  let kg_ok := bot.kg_status.1
  let kgCourses :=
    match bot.kg with
    | some g => if kg_ok then (g.get_courses_by_dept dept).1 else []
    | none => []
  if kgCourses.isEmpty then
    (bot.data.filter (fun c => upperStr c.dept == upperStr dept)).map
      (fun c => RowCT.mk c.course c.title)
  else kgCourses

/-- The `courses` list of the `semester_courses` branch (`src/chatbot.py:225-233`). -/
def Chatbot.semesterResult (bot : Chatbot) (semester : String) : List RowCT :=
  let kg_ok := bot.kg_status.1
  let kgCourses :=
    match bot.kg with
    | some g => if kg_ok then (g.get_courses_by_semester semester).1 else []
    | none => []
  if kgCourses.isEmpty then
    (bot.data.filter (fun c => lowerStr c.semester == lowerStr semester)).map
      (fun c => RowCT.mk c.course c.title)
  else kgCourses

def advisory : String := " Neo4j down, dataset result dekhacchi."

def notFoundCourse : String := "Course code not found. (No matching course.)"

def helpReply : String :=
  "Commands: course teacher/title/credit/semester, teacher courses, dept courses, " ++
    "semester courses, graph status. (Try: 'who teaches CSE411', 'CSE dept courses')"

/-- `build_reply` (`src/chatbot.py:91-246`).  Returns the reply string
together with the log of course records upserted into the Graph Index
during the request. -/
def Chatbot.build_reply (bot : Chatbot) (intent : String) (entities : Entities) :
    String × List Course :=
  let kg_ok := bot.kg_status.1
  let warning := if bot.kg.isSome && !kg_ok then advisory else ""
  if intent == "help" then (helpReply, [])
  else if intent == "graph_show" then
    match bot.kg with
    | none => ("Graph unavailable. Neo4j is not running.", [])
    | some g =>
      if !kg_ok then ("Graph unavailable. Neo4j is not running.", [])
      else
        match g.summary.1 with
        | none => ("Graph summary not available right now.", [])
        | some s =>
          if truthy g.summary.2 then ("Graph summary not available right now.", [])
          else
            ("Graph summary: " ++ toString s.nodes ++ " nodes, " ++ toString s.edges ++
              " edges. (KG has " ++ toString s.nodes ++ " nodes and " ++ toString s.edges ++
              " edges.)", [])
  else if intent == "course_teacher" then
    match bot.get_course (eget entities "course_code") with
    | none => (notFoundCourse, [])
    | some course =>
      (course.course ++ " course er teacher: " ++ course.teacher ++ ". (Teacher of " ++
        course.course ++ " is " ++ course.teacher ++ ".)" ++ warning,
        bot.try_upsert course kg_ok)
  else if intent == "course_title" then
    match bot.get_course (eget entities "course_code") with
    | none => (notFoundCourse, [])
    | some course =>
      (course.course ++ " course er title: " ++ course.title ++ ". (Title of " ++
        course.course ++ " is " ++ course.title ++ ".)" ++ warning,
        bot.try_upsert course kg_ok)
  else if intent == "course_credit" then
    match bot.get_course (eget entities "course_code") with
    | none => (notFoundCourse, [])
    | some course =>
      (course.course ++ " course er credit: " ++ toString course.credit ++ ". (Credits of " ++
        course.course ++ " are " ++ toString course.credit ++ ".)" ++ warning,
        bot.try_upsert course kg_ok)
  else if intent == "course_semester" then
    match bot.get_course (eget entities "course_code") with
    | none => (notFoundCourse, [])
    | some course =>
      (course.course ++ " course offered in: " ++ course.semester ++ ". (" ++
        course.course ++ " is offered in " ++ course.semester ++ ".)" ++ warning,
        bot.try_upsert course kg_ok)
  else if intent == "course_info" then
    match bot.get_course (eget entities "course_code") with
    | none => (notFoundCourse, [])
    | some course =>
      (course.course ++ ": " ++ course.title ++ ", " ++ course.teacher ++ ", " ++
        toString course.credit ++ " credit, " ++ course.semester ++ ". (" ++
        course.course ++ " course info: " ++ course.title ++ ", teacher " ++ course.teacher ++
        ", " ++ toString course.credit ++ " credits, offered in " ++ course.semester ++ ".)" ++
        warning,
        bot.try_upsert course kg_ok)
  else if intent == "teacher_courses" then
    match eget entities "teacher" with
    | none => ("Teacher name not found. (Try a full name.)", [])
    | some teacher =>
      if teacher == "" then ("Teacher name not found. (Try a full name.)", [])
      else
        let courses := bot.teacherResult teacher
        if courses.isEmpty then ("No courses found for that teacher.", [])
        else
          let course_list := String.intercalate ", " (courses.map (fun c => c.code))
          (teacher ++ " er courses: " ++ course_list ++ ". (Courses taught by " ++ teacher ++
            ": " ++ course_list ++ ".)" ++ warning,
            bot.upsertAll courses kg_ok)
  else if intent == "dept_courses" then
    match eget entities "dept" with
    | none => ("Department not found. (Try: CSE department courses.)", [])
    | some dept =>
      if dept == "" then ("Department not found. (Try: CSE department courses.)", [])
      else
        let courses := bot.deptResult dept
        if courses.isEmpty then ("No courses found for that department.", [])
        else
          let course_list := String.intercalate ", " (courses.map (fun c => c.code))
          (dept ++ " department er courses: " ++ course_list ++ ". (Courses in " ++ dept ++
            " department: " ++ course_list ++ ".)" ++ warning,
            bot.upsertAll courses kg_ok)
  else if intent == "semester_courses" then
    match eget entities "semester" with
    | none => ("Semester not found. (Try: Spring 2025 courses.)", [])
    | some semester =>
      if semester == "" then ("Semester not found. (Try: Spring 2025 courses.)", [])
      else
        let courses := bot.semesterResult semester
        if courses.isEmpty then ("No courses found for that semester.", [])
        else
          let course_list := String.intercalate ", " (courses.map (fun c => c.code))
          (semester ++ " er courses: " ++ course_list ++ ". (Courses offered in " ++ semester ++
            ": " ++ course_list ++ ".)" ++ warning,
            bot.upsertAll courses kg_ok)
  else ("Sorry, bujhte parini. (Sorry, I could not understand.)", [])

/-- `process` (`src/chatbot.py:28-32`). -/
def Chatbot.process (bot : Chatbot) (text : String) : String × String × Entities :=
  let entities := bot.extract_entities text
  let intent := detect_intent text entities
  let reply := (bot.build_reply intent entities).1
  (reply, intent, entities)

end CourseBot

namespace KGImpl

open CourseBot

/-!
Embedding of `src/kg.py`.  Every method body is a `try/except Exception`
around session work; the session work is modelled by an `Except`-valued
outcome (its `error` case is the exception the driver would raise), and
each method maps that outcome to the `(value, optional-error)` pair the
Python method returns — exceptions are captured, never re-raised.
-/

structure NodeRow where
  id : Nat
  label : String
  props : List (String × String)
deriving DecidableEq

structure EdgeRow where
  id : Nat
  type : String
  source : Nat
  target : Nat
deriving DecidableEq

structure GraphExport where
  nodes : List NodeRow
  edges : List EdgeRow
deriving DecidableEq

/-- `KnowledgeGraph.health` (`src/kg.py:31-37`). -/
def health (outcome : Except String Unit) : Bool × Option String :=
  match outcome with
  | .ok _ => (true, none)
  | .error e => (false, some e)

/-- `KnowledgeGraph.ensure_constraints` (`src/kg.py:39-52`). -/
def ensure_constraints (outcome : Except String Unit) : Bool × Option String :=
  match outcome with
  | .ok _ => (true, none)
  | .error e => (false, some e)

/-- `KnowledgeGraph.upsert_course` (`src/kg.py:54-79`); the record only
feeds the query parameters, not the returned pair. -/
def upsert_course (_record : Course) (outcome : Except String Unit) : Bool × Option String :=
  match outcome with
  | .ok _ => (true, none)
  | .error e => (false, some e)

/-- `KnowledgeGraph.summary` (`src/kg.py:81-94`); the inner `Option` is
`session.run(...).single()` being `None` or a `(nodes, rels)` row. -/
def summary (outcome : Except String (Option (Nat × Nat))) :
    Option SummaryD × Option String :=
  match outcome with
  | .ok none => (some (SummaryD.mk 0 0), none)
  | .ok (some (n, r)) => (some (SummaryD.mk n r), none)
  | .error e => (none, some e)

/-- `KnowledgeGraph.export_graph` (`src/kg.py:96-120`). -/
def export_graph (outcome : Except String (List NodeRow × List EdgeRow)) :
    Option GraphExport × Option String :=
  match outcome with
  | .ok (ns, es) => (some (GraphExport.mk ns es), none)
  | .error e => (none, some e)

/-- `KnowledgeGraph.get_courses_by_teacher` (`src/kg.py:122-133`). -/
def get_courses_by_teacher (_teacher : String) (outcome : Except String (List RowCT)) :
    List RowCT × Option String :=
  match outcome with
  | .ok rows => (rows, none)
  | .error e => ([], some e)

/-- `KnowledgeGraph.get_courses_by_dept` (`src/kg.py:135-146`). -/
def get_courses_by_dept (_dept : String) (outcome : Except String (List RowCT)) :
    List RowCT × Option String :=
  match outcome with
  | .ok rows => (rows, none)
  | .error e => ([], some e)

/-- `KnowledgeGraph.get_courses_by_semester` (`src/kg.py:148-159`). -/
def get_courses_by_semester (_semester : String) (outcome : Except String (List RowCT)) :
    List RowCT × Option String :=
  match outcome with
  | .ok rows => (rows, none)
  | .error e => ([], some e)

end KGImpl

namespace CourseBot

/-! ### Basic lemmas about the embedding -/

lemma isPrefB_append (l m : List Char) : isPrefB l (l ++ m) = true := by
  induction l with
  | nil => rfl
  | cons a t ih => simp [isPrefB, ih]

lemma data_append (s t : String) : (s ++ t).data = s.data ++ t.data := rfl

lemma endsWithB_append (s t : String) : endsWithB (s ++ t) t = true := by
  unfold endsWithB isSuffB
  rw [data_append, List.reverse_append]
  exact isPrefB_append _ _

@[simp] lemma try_upsert_false (bot : Chatbot) (c : Course) : bot.try_upsert c false = [] := by
  simp [Chatbot.try_upsert]

lemma upsertAll_cons (bot : Chatbot) (row : RowCT) (rows : List RowCT) (k : Bool) :
    bot.upsertAll (row :: rows) k =
      (match bot.by_code (upperStr row.code) with
        | some record => bot.try_upsert record k
        | none => []) ++ bot.upsertAll rows k := rfl

@[simp] lemma upsertAll_false (bot : Chatbot) (rows : List RowCT) :
    bot.upsertAll rows false = [] := by
  induction rows with
  | nil => rfl
  | cons r t ih =>
    rw [upsertAll_cons, ih]
    cases bot.by_code (upperStr r.code) <;> simp

lemma mem_upsertAll (bot : Chatbot) {rows : List RowCT} {row : RowCT} {rec : Course}
    (hr : row ∈ rows) (hb : bot.by_code (upperStr row.code) = some rec)
    (hkg : bot.kg.isSome = true) : rec ∈ bot.upsertAll rows true := by
  induction rows with
  | nil => cases hr
  | cons a t ih =>
    rw [upsertAll_cons]
    rcases List.mem_cons.mp hr with h | h
    · subst h
      rw [hb]
      simp [Chatbot.try_upsert, hkg]
    · exact List.mem_append_right _ (ih h)

lemma kg_isSome_of_status (bot : Chatbot) (h : bot.kg_status.1 = true) :
    bot.kg.isSome = true := by
  cases hk : bot.kg with
  | none => rw [Chatbot.kg_status, hk] at h; cases h
  | some g => rfl

lemma teacher_names_sorted (bot : Chatbot) : List.Sorted lenDescRel bot.teacher_names :=
  List.sorted_insertionSort lenDescRel _

lemma mem_teacher_names (bot : Chatbot) {t : String}
    (h : t ∈ bot.data.map (fun c => c.teacher)) : t ∈ bot.teacher_names := by
  unfold Chatbot.teacher_names sortLenDesc
  rw [List.mem_insertionSort, List.mem_dedup]
  exact h

lemma match_from_list_spec (tl : String) (cands : List String)
    (hs : List.Sorted lenDescRel cands) {t : String}
    (ht : t ∈ cands) (hc : containsStr tl (lowerStr t) = true) :
    ∃ u, match_from_list tl cands = some u ∧ t.length ≤ u.length ∧ u ∈ cands ∧
      containsStr tl (lowerStr u) = true := by
  induction cands with
  | nil => cases ht
  | cons c rest ih =>
    rw [match_from_list]
    by_cases hcc : containsStr tl (lowerStr c) = true
    · rw [if_pos hcc]
      refine ⟨c, rfl, ?_, List.mem_cons_self c rest, hcc⟩
      rcases List.mem_cons.mp ht with h | h
      · exact h ▸ Nat.le_refl _
      · exact (List.sorted_cons.mp hs).1 t h
    · have hne : t ≠ c := fun he => hcc (he ▸ hc)
      have ht' : t ∈ rest := by
        rcases List.mem_cons.mp ht with h | h
        · exact absurd h hne
        · exact h
      rw [if_neg hcc]
      obtain ⟨u, hu, hlen, hmem, hcu⟩ := ih (List.sorted_cons.mp hs).2 ht'
      exact ⟨u, hu, hlen, List.mem_cons_of_mem c hmem, hcu⟩

lemma eget_extract_teacher (bot : Chatbot) (text : String) :
    eget (bot.extract_entities text) "teacher" =
      match_from_list (lowerStr text) bot.teacher_names := rfl

lemma eget_extract_code (bot : Chatbot) (text : String) :
    eget (bot.extract_entities text) "course_code" = courseCodeOf text := rfl

def singleCourseIntents : List String :=
  ["course_teacher", "course_title", "course_credit", "course_semester", "course_info"]

def lookupIntents : List String := ["teacher_courses", "dept_courses", "semester_courses"]

/-! ### Claims -/

/-- **C10**: for every input text, `extract_entities` returns a dictionary
with exactly the four keys `course_code`, `teacher`, `dept`, `semester`
(each value is of type `Option String`), and the entity bundle returned
by `process` is exactly that dictionary. -/
theorem C10_entity_keys (bot : Chatbot) (text : String) :
    (bot.extract_entities text).map Prod.fst = ["course_code", "teacher", "dept", "semester"] ∧
    (bot.process text).2.2 = bot.extract_entities text :=
  ⟨rfl, rfl⟩

/-- **C4**: intent classification gives the help keywords first priority:
any utterance containing one of "help", "commands", "what can you do"
is classified `help` regardless of the entities and of any other
keyword; in particular "help me with the graph" yields `help`. -/
theorem C4_help_precedence :
    (∀ (text : String) (ents : Entities),
        anyKeyword (lowerStr text) ["help", "commands", "what can you do"] = true →
        detect_intent text ents = "help") ∧
    (∀ ents : Entities, detect_intent "help me with the graph" ents = "help") := by
  constructor
  · intro text ents h
    simp only [detect_intent, h, if_true]
  · intro ents
    simp only [detect_intent]
    rw [if_pos (by decide)]

/-- Witness for C4 at a concrete utterance. -/
theorem C4_help_precedence_witness :
    detect_intent "help me book a kg of graph paper" [] = "help" :=
  C4_help_precedence.1 "help me book a kg of graph paper" [] (by decide)

/-- **C9**: keyword detection is raw substring containment on the
lowercased text: any text containing "kg" or "graph" inside a longer
token and no help keyword is classified `graph_show` (e.g.
"background"), and any text containing "help" as a substring is
classified `help` (e.g. "helpful"). -/
theorem C9_substring_keywords :
    (∀ (text : String) (ents : Entities),
        anyKeyword (lowerStr text) ["help", "commands", "what can you do"] = false →
        (containsStr (lowerStr text) "graph" || containsStr (lowerStr text) "kg") = true →
        detect_intent text ents = "graph_show") ∧
    (∀ (text : String) (ents : Entities),
        containsStr (lowerStr text) "help" = true → detect_intent text ents = "help") ∧
    (∀ ents : Entities, detect_intent "background" ents = "graph_show") ∧
    (∀ ents : Entities, detect_intent "helpful" ents = "help") := by
  refine ⟨?_, ?_, ?_, ?_⟩
  · intro text ents h hg
    simp only [detect_intent, h, Bool.false_eq_true, if_false, hg, if_true]
  · intro text ents h
    have ha : anyKeyword (lowerStr text) ["help", "commands", "what can you do"] = true := by
      simp [anyKeyword, List.any, h]
    simp only [detect_intent, ha, if_true]
  · intro ents
    simp only [detect_intent]
    rw [if_neg (by decide), if_pos (by decide)]
  · intro ents
    simp only [detect_intent]
    rw [if_pos (by decide)]

/-- Witness for C9 at concrete utterances. -/
theorem C9_substring_keywords_witness :
    detect_intent "my background" [] = "graph_show" ∧ detect_intent "so helpful" [] = "help" :=
  ⟨C9_substring_keywords.1 "my background" [] (by decide) (by decide),
    C9_substring_keywords.2.1 "so helpful" [] (by decide)⟩

/-- **C8**: every Graph Index operation returns a
`(value, optional-error-text)` pair for every collaborator outcome —
a raised exception (the `error` case of the session outcome) is
captured and converted into error text, never propagated; in
particular each lookup returns `([], some e)` on failure. -/
theorem C8_kg_error_pairs :
    (∀ e, KGImpl.health (Except.error e) = (false, some e)) ∧
    (∀ u, KGImpl.health (Except.ok u) = (true, none)) ∧
    (∀ e, KGImpl.ensure_constraints (Except.error e) = (false, some e)) ∧
    (∀ u, KGImpl.ensure_constraints (Except.ok u) = (true, none)) ∧
    (∀ r e, KGImpl.upsert_course r (Except.error e) = (false, some e)) ∧
    (∀ r u, KGImpl.upsert_course r (Except.ok u) = (true, none)) ∧
    (∀ e, KGImpl.summary (Except.error e) = (none, some e)) ∧
    (KGImpl.summary (Except.ok none) = (some (SummaryD.mk 0 0), none)) ∧
    (∀ n r, KGImpl.summary (Except.ok (some (n, r))) = (some (SummaryD.mk n r), none)) ∧
    (∀ e, KGImpl.export_graph (Except.error e) = (none, some e)) ∧
    (∀ ns es, KGImpl.export_graph (Except.ok (ns, es)) =
      (some (KGImpl.GraphExport.mk ns es), none)) ∧
    (∀ t e, KGImpl.get_courses_by_teacher t (Except.error e) = ([], some e)) ∧
    (∀ t rows, KGImpl.get_courses_by_teacher t (Except.ok rows) = (rows, none)) ∧
    (∀ d e, KGImpl.get_courses_by_dept d (Except.error e) = ([], some e)) ∧
    (∀ d rows, KGImpl.get_courses_by_dept d (Except.ok rows) = (rows, none)) ∧
    (∀ s e, KGImpl.get_courses_by_semester s (Except.error e) = ([], some e)) ∧
    (∀ s rows, KGImpl.get_courses_by_semester s (Except.ok rows) = (rows, none)) := by
  refine ⟨?_, ?_, ?_, ?_, ?_, ?_, ?_, ?_, ?_, ?_, ?_, ?_, ?_, ?_, ?_, ?_, ?_⟩ <;>
    intros <;> rfl

end CourseBot

namespace CourseBot

/-! ### Shape of an extracted course code -/

lemma ccDigits3_spec {x ds r : List Char} (h : ccDigits3 x = some (ds, r)) :
    ∃ d1 d2 d3, ds = [d1, d2, d3] ∧ isDigitB d1 = true ∧ isDigitB d2 = true ∧
      isDigitB d3 = true := by
  rcases x with _ | ⟨d1, x⟩
  · simp [ccDigits3] at h
  rcases x with _ | ⟨d2, x⟩
  · simp [ccDigits3] at h
  rcases x with _ | ⟨d3, x⟩
  · simp [ccDigits3] at h
  rw [ccDigits3] at h
  split at h
  · rename_i hcond
    rw [Bool.and_eq_true, Bool.and_eq_true] at hcond
    simp only [Option.some.injEq, Prod.mk.injEq] at h
    exact ⟨d1, d2, d3, h.1.symm, hcond.1.1, hcond.1.2, hcond.2⟩
  · cases h

lemma ccTryAt_shape {l r : List Char} (h : ccTryAt l = some r) :
    ∃ c1 c2 c3 d1 d2 d3, r = [c1, c2, c3, d1, d2, d3] ∧
      isUpperLetter c1 = true ∧ isUpperLetter c2 = true ∧ isUpperLetter c3 = true ∧
      isDigitB d1 = true ∧ isDigitB d2 = true ∧ isDigitB d3 = true := by
  rcases l with _ | ⟨c1, l⟩
  · simp [ccTryAt] at h
  rcases l with _ | ⟨c2, l⟩
  · simp [ccTryAt] at h
  rcases l with _ | ⟨c3, rest⟩
  · simp [ccTryAt] at h
  rcases rest with _ | ⟨s, rest2⟩
  · simp [ccTryAt] at h
  rw [ccTryAt] at h
  split at h
  · rename_i hletters
    rw [Bool.and_eq_true, Bool.and_eq_true] at hletters
    · split at h
      · split at h
        · rename_i ds r2 hd
          obtain ⟨d1, d2, d3, hds, h1, h2, h3⟩ := ccDigits3_spec hd
          split at h
          · simp only [Option.some.injEq] at h
            exact ⟨c1, c2, c3, d1, d2, d3, by rw [← h, hds]; rfl,
              hletters.1.1, hletters.1.2, hletters.2, h1, h2, h3⟩
          · cases h
        · cases h
      · split at h
        · rename_i ds r2 hd
          obtain ⟨d1, d2, d3, hds, h1, h2, h3⟩ := ccDigits3_spec hd
          split at h
          · simp only [Option.some.injEq] at h
            exact ⟨c1, c2, c3, d1, d2, d3, by rw [← h, hds]; rfl,
              hletters.1.1, hletters.1.2, hletters.2, h1, h2, h3⟩
          · cases h
        · cases h
  · cases h


lemma ccSearch_cons (prev : Option Char) (c : Char) (t : List Char) :
    ccSearch prev (c :: t) =
      match (if (match prev with | none => true | some p => !(isWordChar p)) then
          ccTryAt (c :: t) else none) with
      | some r => some r
      | none => ccSearch (some c) t := rfl

lemma ccSearch_shape {l : List Char} :
    ∀ {prev : Option Char} {r : List Char}, ccSearch prev l = some r →
      ∃ c1 c2 c3 d1 d2 d3, r = [c1, c2, c3, d1, d2, d3] ∧
        isUpperLetter c1 = true ∧ isUpperLetter c2 = true ∧ isUpperLetter c3 = true ∧
        isDigitB d1 = true ∧ isDigitB d2 = true ∧ isDigitB d3 = true := by
  induction l with
  | nil => intro prev r h; exact absurd h (by simp [ccSearch])
  | cons c t ih =>
    intro prev r h
    rw [ccSearch_cons] at h
    split at h
    · rename_i r' heq
      cases h
      split at heq
      · exact ccTryAt_shape heq
      · exact absurd heq (by simp)
    · exact ih h

/-- Concrete catalog with a short teacher name and a longer one
containing it. -/
def botJane : Chatbot :=
  Chatbot.mk
    [Course.mk "CSE101" "Intro" "Jane" "CSE" "Fall 2024" 3,
      Course.mk "CSE202" "Data" "Jane Smith" "CSE" "Fall 2024" 3] none

/-- Concrete catalog with a chain of three teacher names, each a
substring of the next. -/
def botJane3 : Chatbot :=
  Chatbot.mk
    [Course.mk "CSE101" "Intro" "Jane" "CSE" "Fall 2024" 3,
      Course.mk "CSE202" "Data" "Jane Smith" "CSE" "Fall 2024" 3,
      Course.mk "CSE303" "Nets" "Jane Smith Sr" "CSE" "Fall 2024" 3] none

/-- **C5 (counterexample)**: the utterance "Cse  411" — with the two
spaces the claim literally contains — yields no course code at all:
the pattern allows at most a single space between letters and digits. -/
theorem C5_counterexample :
    ¬ (eget ((Chatbot.mk [] none).extract_entities "Cse  411") "course_code" =
        some "CSE411") := by decide

/-- **C5 (amended)**: course-code extraction normalizes "cse 411",
"CSE411" and "Cse 411" (single separating space) to `CSE411`, uses only
the first match in the text, and every extracted code has the canonical
shape: three uppercase letters immediately followed by three digits. -/
theorem C5_course_code_extraction :
    (∀ bot : Chatbot, eget (bot.extract_entities "cse 411") "course_code" = some "CSE411") ∧
    (∀ bot : Chatbot, eget (bot.extract_entities "CSE411") "course_code" = some "CSE411") ∧
    (∀ bot : Chatbot, eget (bot.extract_entities "Cse 411") "course_code" = some "CSE411") ∧
    (∀ bot : Chatbot,
        eget (bot.extract_entities "MAT 101 and CSE 411") "course_code" = some "MAT101") ∧
    (∀ text code, courseCodeOf text = some code →
      ∃ c1 c2 c3 d1 d2 d3, code = String.mk [c1, c2, c3, d1, d2, d3] ∧
        isUpperLetter c1 = true ∧ isUpperLetter c2 = true ∧ isUpperLetter c3 = true ∧
        isDigitB d1 = true ∧ isDigitB d2 = true ∧ isDigitB d3 = true) := by
  refine ⟨?_, ?_, ?_, ?_, ?_⟩
  · intro bot; rw [eget_extract_code]; decide
  · intro bot; rw [eget_extract_code]; decide
  · intro bot; rw [eget_extract_code]; decide
  · intro bot; rw [eget_extract_code]; decide
  · intro text code h
    unfold courseCodeOf at h
    rcases hcs : ccSearch none (upperStr text).data with _ | r
    · rw [hcs] at h; cases h
    · rw [hcs] at h
      obtain ⟨c1, c2, c3, d1, d2, d3, hr, hs⟩ := ccSearch_shape hcs
      cases h
      exact ⟨c1, c2, c3, d1, d2, d3, by rw [hr], hs.1, hs.2.1, hs.2.2.1, hs.2.2.2.1,
        hs.2.2.2.2.1, hs.2.2.2.2.2⟩

/-- Witness for C5 at a concrete input. -/
theorem C5_course_code_extraction_witness :
    ∃ c1 c2 c3 d1 d2 d3, ("CSE411" : String) = String.mk [c1, c2, c3, d1, d2, d3] ∧
      isUpperLetter c1 = true ∧ isUpperLetter c2 = true ∧ isUpperLetter c3 = true ∧
      isDigitB d1 = true ∧ isDigitB d2 = true ∧ isDigitB d3 = true :=
  C5_course_code_extraction.2.2.2.2 "who teaches cse 411" "CSE411" (by decide)

/-- **C6 (counterexample)**: with teacher names "Jane", "Jane Smith"
and "Jane Smith Sr" in the catalog and a text containing all three,
the pair ("Jane", "Jane Smith") satisfies the claim's hypotheses (both
present case-insensitively, one a substring of the other), yet extract
does not return "Jane Smith", the longer name of that pair. -/
theorem C6_counterexample :
    eget (botJane3.extract_entities "classes by jane smith sr") "teacher" =
        some "Jane Smith Sr" ∧
      ¬ (eget (botJane3.extract_entities "classes by jane smith sr") "teacher" =
        some "Jane Smith") := by
  constructor
  · decide
  · decide

/-- **C6 (amended)**: teacher extraction prefers the longest matching
candidate: whenever two catalog teacher names both occur
(case-insensitively) in the text and one is strictly shorter, the
extracted teacher is a matching candidate at least as long as the
longer of the two, and never the shorter one; with "Jane" and
"Jane Smith" the only candidates, extraction returns "Jane Smith". -/
theorem C6_longest_teacher_match :
    (∀ (bot : Chatbot) (text t1 t2 : String),
        t1 ∈ bot.data.map (fun c => c.teacher) →
        t2 ∈ bot.data.map (fun c => c.teacher) →
        t1.length < t2.length →
        containsStr (lowerStr text) (lowerStr t1) = true →
        containsStr (lowerStr text) (lowerStr t2) = true →
        ∃ u, eget (bot.extract_entities text) "teacher" = some u ∧
          t2.length ≤ u.length ∧ u ≠ t1) ∧
    (eget (botJane.extract_entities "courses by jane smith") "teacher" = some "Jane Smith") := by
  constructor
  · intro bot text t1 t2 _h1 h2 hlen _hc1 hc2
    rw [eget_extract_teacher]
    obtain ⟨u, hu, hul, _humem, _hucont⟩ :=
      match_from_list_spec (lowerStr text) bot.teacher_names (teacher_names_sorted bot)
        (mem_teacher_names bot h2) hc2
    refine ⟨u, hu, hul, ?_⟩
    intro he
    rw [he] at hul
    exact absurd hul (Nat.not_le.mpr hlen)
  · decide

/-- Witness for C6 at a concrete catalog and text. -/
theorem C6_longest_teacher_match_witness :
    ∃ u, eget (botJane.extract_entities "courses by jane smith") "teacher" = some u ∧
      ("Jane Smith" : String).length ≤ u.length ∧ u ≠ "Jane" :=
  C6_longest_teacher_match.1 botJane "courses by jane smith" "Jane" "Jane Smith"
    (by decide) (by decide) (by decide) (by decide) (by decide)

/-- **C7**: for every single-course intent whose course code is absent
from the Catalog, `build_reply` returns the fixed not-found reply with
no Graph Index write, and `process` still reports the classified
intent unchanged. -/
theorem C7_unknown_code :
    (∀ (bot : Chatbot) (intent : String) (ents : Entities) (code : String),
        intent ∈ singleCourseIntents →
        eget ents "course_code" = some code →
        bot.by_code (upperStr code) = none →
        bot.build_reply intent ents = (notFoundCourse, [])) ∧
    (∀ (bot : Chatbot) (text : String),
        (bot.process text).2.1 = detect_intent text (bot.extract_entities text)) := by
  constructor
  · intro bot intent ents code hmem hcode hbc
    have hget : bot.get_course (eget ents "course_code") = none := by
      rw [hcode, Chatbot.get_course]
      by_cases he : (code == "") = true
      · rw [if_pos he]
      · rw [if_neg he]; exact hbc
    fin_cases hmem <;> simp +decide only [Chatbot.build_reply, hget, if_true, if_false]
  · intro bot text; rfl

/-- Witness for C7: course code `ZZZ999` is absent from the concrete
catalog, so the reply is the fixed not-found message and no upsert
happens. -/
theorem C7_unknown_code_witness :
    botJane.build_reply "course_teacher" [("course_code", some "ZZZ999")] =
      (notFoundCourse, []) :=
  C7_unknown_code.1 botJane "course_teacher" [("course_code", some "ZZZ999")] "ZZZ999"
    (by decide) (by decide) (by decide)

end CourseBot

namespace CourseBot

/-! ### Fallback behaviour of the lookup result lists -/

@[simp] lemma isEmpty_map {α β : Type} (f : α → β) (l : List α) :
    (l.map f).isEmpty = l.isEmpty := by
  cases l <;> rfl

lemma kg_status_some {bot : Chatbot} {g : KGBehavior} (h : bot.kg = some g) :
    bot.kg_status = g.health := by
  unfold Chatbot.kg_status
  rw [h]

lemma teacherResult_down (bot : Chatbot) (t : String) (hdown : bot.kg_status.1 = false) :
    bot.teacherResult t =
      (bot.data.filter (fun c => c.teacher == t)).map (fun c => RowCT.mk c.course c.title) := by
  unfold Chatbot.teacherResult
  cases hk : bot.kg with
  | none => simp
  | some g => simp [hdown]

lemma deptResult_down (bot : Chatbot) (d : String) (hdown : bot.kg_status.1 = false) :
    bot.deptResult d =
      (bot.data.filter (fun c => upperStr c.dept == upperStr d)).map
        (fun c => RowCT.mk c.course c.title) := by
  unfold Chatbot.deptResult
  cases hk : bot.kg with
  | none => simp
  | some g => simp [hdown]

lemma semesterResult_down (bot : Chatbot) (s : String) (hdown : bot.kg_status.1 = false) :
    bot.semesterResult s =
      (bot.data.filter (fun c => lowerStr c.semester == lowerStr s)).map
        (fun c => RowCT.mk c.course c.title) := by
  unfold Chatbot.semesterResult
  cases hk : bot.kg with
  | none => simp
  | some g => simp [hdown]

/-- **C1**: for each lookup intent with the required entity present, if
the Graph Index is unhealthy or absent (`kg_status` probe false), the
course-code list in the reply is exactly the Catalog filtered by the
same entity value — teacher by exact name, department by
case-insensitive code, semester by case-insensitive name — in Catalog
order. -/
theorem C1_fallback_equivalence (bot : Chatbot) (ents : Entities)
    (hdown : bot.kg_status.1 = false) :
    (∀ t, eget ents "teacher" = some t → (t == "") = false →
      (bot.build_reply "teacher_courses" ents).1 =
        (let cs := (bot.data.filter (fun c => c.teacher == t)).map (fun c => c.course)
         if cs.isEmpty then "No courses found for that teacher."
         else t ++ " er courses: " ++ String.intercalate ", " cs ++
           ". (Courses taught by " ++ t ++ ": " ++ String.intercalate ", " cs ++ ".)" ++
           (if bot.kg.isSome then advisory else ""))) ∧
    (∀ d, eget ents "dept" = some d → (d == "") = false →
      (bot.build_reply "dept_courses" ents).1 =
        (let cs := (bot.data.filter (fun c => upperStr c.dept == upperStr d)).map
            (fun c => c.course)
         if cs.isEmpty then "No courses found for that department."
         else d ++ " department er courses: " ++ String.intercalate ", " cs ++
           ". (Courses in " ++ d ++ " department: " ++ String.intercalate ", " cs ++ ".)" ++
           (if bot.kg.isSome then advisory else ""))) ∧
    (∀ s, eget ents "semester" = some s → (s == "") = false →
      (bot.build_reply "semester_courses" ents).1 =
        (let cs := (bot.data.filter (fun c => lowerStr c.semester == lowerStr s)).map
            (fun c => c.course)
         if cs.isEmpty then "No courses found for that semester."
         else s ++ " er courses: " ++ String.intercalate ", " cs ++
           ". (Courses offered in " ++ s ++ ": " ++ String.intercalate ", " cs ++ ".)" ++
           (if bot.kg.isSome then advisory else ""))) := by
  refine ⟨?_, ?_, ?_⟩
  · intro t ht ht'
    simp +decide only [Chatbot.build_reply, ht, ht', if_true, if_false, Bool.false_eq_true,
      teacherResult_down bot t hdown, hdown, Bool.not_false, Bool.and_true]
    cases hf : bot.data.filter (fun c => c.teacher == t) with
    | nil => simp
    | cons a l =>
      have hcomp : ((fun (r : RowCT) => r.code) ∘ fun (c : Course) => RowCT.mk c.course c.title) =
          fun (c : Course) => c.course := rfl
      simp [List.map_map, hcomp]
  · intro d hd hd'
    simp +decide only [Chatbot.build_reply, hd, hd', if_true, if_false, Bool.false_eq_true,
      deptResult_down bot d hdown, hdown, Bool.not_false, Bool.and_true]
    cases hf : bot.data.filter (fun c => upperStr c.dept == upperStr d) with
    | nil => simp
    | cons a l =>
      have hcomp : ((fun (r : RowCT) => r.code) ∘ fun (c : Course) => RowCT.mk c.course c.title) =
          fun (c : Course) => c.course := rfl
      simp [List.map_map, hcomp]
  · intro s hs hs'
    simp +decide only [Chatbot.build_reply, hs, hs', if_true, if_false, Bool.false_eq_true,
      semesterResult_down bot s hdown, hdown, Bool.not_false, Bool.and_true]
    cases hf : bot.data.filter (fun c => lowerStr c.semester == lowerStr s) with
    | nil => simp
    | cons a l =>
      have hcomp : ((fun (r : RowCT) => r.code) ∘ fun (c : Course) => RowCT.mk c.course c.title) =
          fun (c : Course) => c.course := rfl
      simp [List.map_map, hcomp]

/-- Witness for C1: Graph Index absent, teacher lookup for "Jane". -/
theorem C1_fallback_equivalence_witness :
    (botJane.build_reply "teacher_courses" [("teacher", some "Jane")]).1 =
      (let cs := (botJane.data.filter (fun c => c.teacher == "Jane")).map (fun c => c.course)
       if cs.isEmpty then "No courses found for that teacher."
       else "Jane" ++ " er courses: " ++ String.intercalate ", " cs ++
         ". (Courses taught by " ++ "Jane" ++ ": " ++ String.intercalate ", " cs ++ ".)" ++
         (if botJane.kg.isSome then advisory else "")) :=
  (C1_fallback_equivalence botJane [("teacher", some "Jane")] (by decide)).1
    "Jane" (by decide) (by decide)

end CourseBot

namespace CourseBot

/-- Log of Graph Index writes is empty for every intent when the index
is unconfigured or the health probe failed. -/
lemma build_reply_log_down (bot : Chatbot) (hdown : bot.kg_status.1 = false)
    (intent : String) (ents : Entities) : (bot.build_reply intent ents).2 = [] := by
  by_cases h1 : intent = "help"
  · subst h1; rfl
  by_cases h2 : intent = "graph_show"
  · subst h2
    simp +decide only [Chatbot.build_reply]
    repeat' split
    all_goals rfl
  by_cases h3 : intent = "course_teacher"
  · subst h3
    simp +decide only [Chatbot.build_reply, hdown, if_true, if_false]
    split
    · rfl
    · simp [Chatbot.try_upsert]
  by_cases h4 : intent = "course_title"
  · subst h4
    simp +decide only [Chatbot.build_reply, hdown, if_true, if_false]
    split
    · rfl
    · simp [Chatbot.try_upsert]
  by_cases h5 : intent = "course_credit"
  · subst h5
    simp +decide only [Chatbot.build_reply, hdown, if_true, if_false]
    split
    · rfl
    · simp [Chatbot.try_upsert]
  by_cases h6 : intent = "course_semester"
  · subst h6
    simp +decide only [Chatbot.build_reply, hdown, if_true, if_false]
    split
    · rfl
    · simp [Chatbot.try_upsert]
  by_cases h7 : intent = "course_info"
  · subst h7
    simp +decide only [Chatbot.build_reply, hdown, if_true, if_false]
    split
    · rfl
    · simp [Chatbot.try_upsert]
  by_cases h8 : intent = "teacher_courses"
  · subst h8
    simp +decide only [Chatbot.build_reply, hdown, if_true, if_false]
    repeat' split
    all_goals simp
  by_cases h9 : intent = "dept_courses"
  · subst h9
    simp +decide only [Chatbot.build_reply, hdown, if_true, if_false]
    repeat' split
    all_goals simp
  by_cases h10 : intent = "semester_courses"
  · subst h10
    simp +decide only [Chatbot.build_reply, hdown, if_true, if_false]
    repeat' split
    all_goals simp
  have b1 : (intent == "help") = false := by simp [h1]
  have b2 : (intent == "graph_show") = false := by simp [h2]
  have b3 : (intent == "course_teacher") = false := by simp [h3]
  have b4 : (intent == "course_title") = false := by simp [h4]
  have b5 : (intent == "course_credit") = false := by simp [h5]
  have b6 : (intent == "course_semester") = false := by simp [h6]
  have b7 : (intent == "course_info") = false := by simp [h7]
  have b8 : (intent == "teacher_courses") = false := by simp [h8]
  have b9 : (intent == "dept_courses") = false := by simp [h9]
  have b10 : (intent == "semester_courses") = false := by simp [h10]
  simp only [Chatbot.build_reply, b1, b2, b3, b4, b5, b6, b7, b8, b9, b10,
    Bool.false_eq_true, if_false]

/-- **C2**: write-through policy of `build_reply` — (1) with a healthy
probe, a course resolved for a single-course intent is upserted into
the Graph Index; (2-4) with a healthy probe, every element of a
lookup-intent result list that resolves in the Catalog is upserted;
(5) with the index unconfigured or the probe unhealthy, no upsert is
ever issued, for any intent; (6) the Graph Index's upsert behaviour
(success or failure) never changes the reply text. -/
theorem C2_write_through :
    (∀ (bot : Chatbot) (intent : String) (ents : Entities) (c : Course),
        intent ∈ singleCourseIntents → bot.kg_status.1 = true →
        bot.get_course (eget ents "course_code") = some c →
        c ∈ (bot.build_reply intent ents).2) ∧
    (∀ (bot : Chatbot) (ents : Entities) (t : String) (row : RowCT) (rec : Course),
        bot.kg_status.1 = true → eget ents "teacher" = some t → (t == "") = false →
        row ∈ bot.teacherResult t → bot.by_code (upperStr row.code) = some rec →
        rec ∈ (bot.build_reply "teacher_courses" ents).2) ∧
    (∀ (bot : Chatbot) (ents : Entities) (d : String) (row : RowCT) (rec : Course),
        bot.kg_status.1 = true → eget ents "dept" = some d → (d == "") = false →
        row ∈ bot.deptResult d → bot.by_code (upperStr row.code) = some rec →
        rec ∈ (bot.build_reply "dept_courses" ents).2) ∧
    (∀ (bot : Chatbot) (ents : Entities) (s : String) (row : RowCT) (rec : Course),
        bot.kg_status.1 = true → eget ents "semester" = some s → (s == "") = false →
        row ∈ bot.semesterResult s → bot.by_code (upperStr row.code) = some rec →
        rec ∈ (bot.build_reply "semester_courses" ents).2) ∧
    (∀ (bot : Chatbot) (intent : String) (ents : Entities),
        bot.kg_status.1 = false → (bot.build_reply intent ents).2 = []) ∧
    (∀ (data : List Course) (g : KGBehavior) (u u' : Course → Bool × Option String)
        (intent : String) (ents : Entities),
        ((Chatbot.mk data (some { g with upsert_course := u })).build_reply intent ents).1 =
          ((Chatbot.mk data (some { g with upsert_course := u' })).build_reply intent
            ents).1) := by
  refine ⟨?_, ?_, ?_, ?_, ?_, ?_⟩
  · intro bot intent ents c hmem hok hget
    fin_cases hmem <;>
      · simp +decide only [Chatbot.build_reply, hget, if_true, if_false]
        rw [hok]
        simp [Chatbot.try_upsert, kg_isSome_of_status bot hok]
  · intro bot ents t row rec hok ht ht' hrow hb
    have hne : (bot.teacherResult t).isEmpty = false := by
      cases hq : bot.teacherResult t with
      | nil => rw [hq] at hrow; cases hrow
      | cons a l => rfl
    simp +decide only [Chatbot.build_reply, ht, ht', hne, if_true, if_false,
      Bool.false_eq_true]
    rw [hok]
    exact mem_upsertAll bot hrow hb (kg_isSome_of_status bot hok)
  · intro bot ents d row rec hok hd hd' hrow hb
    have hne : (bot.deptResult d).isEmpty = false := by
      cases hq : bot.deptResult d with
      | nil => rw [hq] at hrow; cases hrow
      | cons a l => rfl
    simp +decide only [Chatbot.build_reply, hd, hd', hne, if_true, if_false,
      Bool.false_eq_true]
    rw [hok]
    exact mem_upsertAll bot hrow hb (kg_isSome_of_status bot hok)
  · intro bot ents s row rec hok hs hs' hrow hb
    have hne : (bot.semesterResult s).isEmpty = false := by
      cases hq : bot.semesterResult s with
      | nil => rw [hq] at hrow; cases hrow
      | cons a l => rfl
    simp +decide only [Chatbot.build_reply, hs, hs', hne, if_true, if_false,
      Bool.false_eq_true]
    rw [hok]
    exact mem_upsertAll bot hrow hb (kg_isSome_of_status bot hok)
  · exact fun bot intent ents hdown => build_reply_log_down bot hdown intent ents
  · intro data g u u' intent ents
    cases g
    rfl

/-- A healthy Graph Index behaviour whose lookups return no rows. -/
def kgOK : KGBehavior :=
  KGBehavior.mk (true, none) (some (SummaryD.mk 0 0), none)
    (fun _ => ([], none)) (fun _ => ([], none)) (fun _ => ([], none)) (fun _ => (true, none))

def courseA : Course := Course.mk "CSE411" "Algorithms" "Dr. A" "CSE" "Fall 2024" 3

def botKG : Chatbot := Chatbot.mk [courseA] (some kgOK)

/-- Witness for C2: with a healthy index, asking for the teacher of
CSE411 upserts that course record. -/
theorem C2_write_through_witness :
    courseA ∈ (botKG.build_reply "course_teacher" [("course_code", some "CSE411")]).2 :=
  C2_write_through.1 botKG "course_teacher" [("course_code", some "CSE411")] courseA
    (by decide) (by decide) (by decide)

end CourseBot

namespace CourseBot

lemma teacherResult_kg_empty {bot : Chatbot} {g : KGBehavior} {t : String}
    (hkg : bot.kg = some g) (hcall : (g.get_courses_by_teacher t).1 = []) :
    bot.teacherResult t =
      (bot.data.filter (fun c => c.teacher == t)).map (fun c => RowCT.mk c.course c.title) := by
  unfold Chatbot.teacherResult
  simp only [hkg, hcall]
  cases bot.kg_status.1 <;> simp

lemma deptResult_kg_empty {bot : Chatbot} {g : KGBehavior} {d : String}
    (hkg : bot.kg = some g) (hcall : (g.get_courses_by_dept d).1 = []) :
    bot.deptResult d =
      (bot.data.filter (fun c => upperStr c.dept == upperStr d)).map
        (fun c => RowCT.mk c.course c.title) := by
  unfold Chatbot.deptResult
  simp only [hkg, hcall]
  cases bot.kg_status.1 <;> simp

lemma semesterResult_kg_empty {bot : Chatbot} {g : KGBehavior} {s : String}
    (hkg : bot.kg = some g) (hcall : (g.get_courses_by_semester s).1 = []) :
    bot.semesterResult s =
      (bot.data.filter (fun c => lowerStr c.semester == lowerStr s)).map
        (fun c => RowCT.mk c.course c.title) := by
  unfold Chatbot.semesterResult
  simp only [hkg, hcall]
  cases bot.kg_status.1 <;> simp

/-- A configured Graph Index whose health probe succeeds but whose
every query fails. -/
def kgFail : KGBehavior :=
  KGBehavior.mk (true, none) (none, some "boom")
    (fun _ => ([], some "boom")) (fun _ => ([], some "boom")) (fun _ => ([], some "boom"))
    (fun _ => (false, some "boom"))

def botFail : Chatbot := Chatbot.mk [courseA] (some kgFail)

/-- A configured Graph Index whose health probe fails. -/
def kgDown : KGBehavior :=
  KGBehavior.mk (false, some "down") (none, some "down")
    (fun _ => ([], some "down")) (fun _ => ([], some "down")) (fun _ => ([], some "down"))
    (fun _ => (false, some "down"))

def botDown : Chatbot := Chatbot.mk [courseA] (some kgDown)

/-- **C3 (counterexample)**: with a healthy probe but a failing teacher
lookup (a Graph Index call that raises during the request), the reply
still concerns a resolved course — it falls back to the Catalog — but
it does **not** end with the advisory suffix, contradicting the claim
that any failing Graph Index call during the request triggers the
suffix. -/
theorem C3_counterexample :
    (kgFail.get_courses_by_teacher "Dr. A").2 = some "boom" ∧
    (botFail.build_reply "teacher_courses" [("teacher", some "Dr. A")]).1 =
      "Dr. A er courses: CSE411. (Courses taught by Dr. A: CSE411.)" ∧
    endsWithB (botFail.build_reply "teacher_courses" [("teacher", some "Dr. A")]).1
      advisory = false := by
  refine ⟨rfl, by decide, by decide⟩

/-- **C3 (amended)**: when the Graph Index is configured and the health
probe fails, every reply concerning a resolved course ends with the
fixed advisory suffix and resolution falls back to the Catalog; when
the probe succeeds but a lookup call fails — any of the teacher,
department or semester lookups — resolution falls back to the Catalog
but the reply carries no advisory suffix. -/
theorem C3_advisory_suffix :
    (∀ (bot : Chatbot) (g : KGBehavior), bot.kg = some g → g.health.1 = false →
      (∀ (intent : String) (ents : Entities) (c : Course), intent ∈ singleCourseIntents →
          bot.get_course (eget ents "course_code") = some c →
          endsWithB (bot.build_reply intent ents).1 advisory = true) ∧
      (∀ (ents : Entities) (t : String), eget ents "teacher" = some t → (t == "") = false →
          (bot.data.filter (fun c => c.teacher == t)).isEmpty = false →
          endsWithB (bot.build_reply "teacher_courses" ents).1 advisory = true) ∧
      (∀ (ents : Entities) (d : String), eget ents "dept" = some d → (d == "") = false →
          (bot.data.filter (fun c => upperStr c.dept == upperStr d)).isEmpty = false →
          endsWithB (bot.build_reply "dept_courses" ents).1 advisory = true) ∧
      (∀ (ents : Entities) (s : String), eget ents "semester" = some s → (s == "") = false →
          (bot.data.filter (fun c => lowerStr c.semester == lowerStr s)).isEmpty = false →
          endsWithB (bot.build_reply "semester_courses" ents).1 advisory = true)) ∧
    (∀ (bot : Chatbot) (g : KGBehavior) (err : String) (ents : Entities) (t : String),
        bot.kg = some g → g.health.1 = true →
        g.get_courses_by_teacher t = ([], some err) →
        eget ents "teacher" = some t → (t == "") = false →
        (bot.build_reply "teacher_courses" ents).1 =
          (let cs := (bot.data.filter (fun c => c.teacher == t)).map (fun c => c.course)
           if cs.isEmpty then "No courses found for that teacher."
           else t ++ " er courses: " ++ String.intercalate ", " cs ++
             ". (Courses taught by " ++ t ++ ": " ++ String.intercalate ", " cs ++ ".)")) ∧
    (∀ (bot : Chatbot) (g : KGBehavior) (err : String) (ents : Entities) (d : String),
        bot.kg = some g → g.health.1 = true →
        g.get_courses_by_dept d = ([], some err) →
        eget ents "dept" = some d → (d == "") = false →
        (bot.build_reply "dept_courses" ents).1 =
          (let cs := (bot.data.filter (fun c => upperStr c.dept == upperStr d)).map
              (fun c => c.course)
           if cs.isEmpty then "No courses found for that department."
           else d ++ " department er courses: " ++ String.intercalate ", " cs ++
             ". (Courses in " ++ d ++ " department: " ++
             String.intercalate ", " cs ++ ".)")) ∧
    (∀ (bot : Chatbot) (g : KGBehavior) (err : String) (ents : Entities) (s : String),
        bot.kg = some g → g.health.1 = true →
        g.get_courses_by_semester s = ([], some err) →
        eget ents "semester" = some s → (s == "") = false →
        (bot.build_reply "semester_courses" ents).1 =
          (let cs := (bot.data.filter (fun c => lowerStr c.semester == lowerStr s)).map
              (fun c => c.course)
           if cs.isEmpty then "No courses found for that semester."
           else s ++ " er courses: " ++ String.intercalate ", " cs ++
             ". (Courses offered in " ++ s ++ ": " ++
             String.intercalate ", " cs ++ ".)")) := by
  refine ⟨?_, ?_, ?_, ?_⟩
  · intro bot g hkg hh
    have hdown : bot.kg_status.1 = false := by rw [kg_status_some hkg]; exact hh
    have hwarn : (if bot.kg.isSome && !bot.kg_status.1 then advisory else "") = advisory := by
      rw [hkg, hdown]
      simp
    refine ⟨?_, ?_, ?_, ?_⟩
    · intro intent ents c hmem hget
      fin_cases hmem <;>
        · simp +decide only [Chatbot.build_reply, hget, if_true, if_false]
          rw [hwarn]
          exact endsWithB_append _ _
    · intro ents t ht ht' hfilter
      have hres := teacherResult_down bot t hdown
      have hne : (bot.teacherResult t).isEmpty = false := by
        rw [hres, isEmpty_map]; exact hfilter
      simp +decide only [Chatbot.build_reply, ht, ht', hne, if_true, if_false,
        Bool.false_eq_true]
      rw [hwarn]
      exact endsWithB_append _ _
    · intro ents d hd hd' hfilter
      have hres := deptResult_down bot d hdown
      have hne : (bot.deptResult d).isEmpty = false := by
        rw [hres, isEmpty_map]; exact hfilter
      simp +decide only [Chatbot.build_reply, hd, hd', hne, if_true, if_false,
        Bool.false_eq_true]
      rw [hwarn]
      exact endsWithB_append _ _
    · intro ents s hs hs' hfilter
      have hres := semesterResult_down bot s hdown
      have hne : (bot.semesterResult s).isEmpty = false := by
        rw [hres, isEmpty_map]; exact hfilter
      simp +decide only [Chatbot.build_reply, hs, hs', hne, if_true, if_false,
        Bool.false_eq_true]
      rw [hwarn]
      exact endsWithB_append _ _
  · intro bot g err ents t hkg hh hcall ht ht'
    have hok : bot.kg_status.1 = true := by rw [kg_status_some hkg]; exact hh
    have hres := teacherResult_kg_empty hkg (by rw [hcall])
    have hwarn0 : (if bot.kg.isSome && !bot.kg_status.1 then advisory else "") = "" := by
      rw [hok]
      simp
    simp +decide only [Chatbot.build_reply, ht, ht', hres, if_true, if_false,
      Bool.false_eq_true]
    rw [hwarn0]
    cases hf : bot.data.filter (fun c => c.teacher == t) with
    | nil => simp
    | cons a l =>
      have hcomp : ((fun (r : RowCT) => r.code) ∘ fun (c : Course) => RowCT.mk c.course c.title) =
          fun (c : Course) => c.course := rfl
      simp [List.map_map, hcomp]
  · intro bot g err ents d hkg hh hcall hd hd'
    have hok : bot.kg_status.1 = true := by rw [kg_status_some hkg]; exact hh
    have hres := deptResult_kg_empty hkg (by rw [hcall])
    have hwarn0 : (if bot.kg.isSome && !bot.kg_status.1 then advisory else "") = "" := by
      rw [hok]
      simp
    simp +decide only [Chatbot.build_reply, hd, hd', hres, if_true, if_false,
      Bool.false_eq_true]
    rw [hwarn0]
    cases hf : bot.data.filter (fun c => upperStr c.dept == upperStr d) with
    | nil => simp
    | cons a l =>
      have hcomp : ((fun (r : RowCT) => r.code) ∘ fun (c : Course) => RowCT.mk c.course c.title) =
          fun (c : Course) => c.course := rfl
      simp [List.map_map, hcomp]
  · intro bot g err ents s hkg hh hcall hs hs'
    have hok : bot.kg_status.1 = true := by rw [kg_status_some hkg]; exact hh
    have hres := semesterResult_kg_empty hkg (by rw [hcall])
    have hwarn0 : (if bot.kg.isSome && !bot.kg_status.1 then advisory else "") = "" := by
      rw [hok]
      simp
    simp +decide only [Chatbot.build_reply, hs, hs', hres, if_true, if_false,
      Bool.false_eq_true]
    rw [hwarn0]
    cases hf : bot.data.filter (fun c => lowerStr c.semester == lowerStr s) with
    | nil => simp
    | cons a l =>
      have hcomp : ((fun (r : RowCT) => r.code) ∘ fun (c : Course) => RowCT.mk c.course c.title) =
          fun (c : Course) => c.course := rfl
      simp [List.map_map, hcomp]

/-- Witness for C3: probe-failing index, resolved course, reply ends
with the advisory suffix. -/
theorem C3_advisory_suffix_witness :
    endsWithB (botDown.build_reply "course_teacher" [("course_code", some "CSE411")]).1
      advisory = true :=
  (C3_advisory_suffix.1 botDown kgDown rfl rfl).1 "course_teacher"
    [("course_code", some "CSE411")] courseA (by decide) (by decide)

end CourseBot
